import Mathlib

/-!
# Verification of the WebGPU point-cloud / Gaussian-splat viewer

Shallow embedding of the viewer's algorithmic core (`src/main.js`, both
concatenated variants: the triangle-3 splat variant and the quad-6 splat
variant; `src/models.js`; and the point-list variant in
`src/unnamed/part_000`), together with proofs settling the frozen claims.

Modelling conventions:
* JavaScript numbers are idealised as exact rationals (`ℚ`); the value `NaN`
  is modelled as `none` in `JsF := Option ℚ`.  Quantities produced by
  trigonometric functions (point positions of the procedural generators,
  shader math) are modelled over `ℝ`.
* JavaScript strings are modelled as `List Char` (`JsStr`), with `String`
  only at the outer boundary, so that every decode is kernel-computable.
* A JavaScript expression `a || b` applied to a number (falsy on `NaN` and
  `0`) is modelled by `jsOr`.
* Where the viewer divides by a constant, the model uses `ratDivNat`, a
  kernel-computable implementation of rational division by a natural number;
  `ratDivNat_eq` proves it is exactly `· / ·` (the library's `Rat.div` is
  `@[irreducible]`, which would block evaluation of concrete decodes).
* An out-of-range JavaScript array read yields `undefined`; calling a string
  method on it throws.  The PLY decoder therefore returns `Except Unit _`,
  where `.error ()` models the thrown `TypeError`.
-/

/-! ## JavaScript primitives -/

/-- A JavaScript floating-point value: `none` models `NaN`,
`some q` models the (idealised, exact) finite value `q`. -/
abbrev JsF := Option ℚ

/-- A JavaScript string, as its character list. -/
abbrev JsStr := List Char

/-- `jsOr v d` models the JavaScript expression `v || d` on numbers:
`NaN` and `0` are falsy, every other number is truthy. -/
def jsOr (v : JsF) (d : ℚ) : ℚ :=
  match v with
  | none => d
  | some x => if x = 0 then d else x

/-- Division of a rational by a natural number, implemented on the raw
numerator/denominator so that it is kernel-computable.  `ratDivNat_eq`
below proves `ratDivNat q n = q / n`. -/
def ratDivNat (q : ℚ) (n : ℕ) : ℚ := mkRat q.num (q.den * n)

/-- `String.prototype.split` with a single-character separator test: splits
into the (possibly empty) chunks between separator characters, keeping empty
chunks like JavaScript does. -/
def splitOnPred (p : Char → Bool) : List Char → List (List Char)
  | [] => [[]]
  | c :: rest =>
    if p c then [] :: splitOnPred p rest
    else
      match splitOnPred p rest with
      | [] => [[c]]
      | g :: gs => (c :: g) :: gs

/-- JavaScript `text.split('\n')`. -/
def jsLines (text : String) : List JsStr :=
  splitOnPred (fun c => c = '\n') text.data

/-- JavaScript `String.prototype.trim`. -/
def jsTrim (cs : JsStr) : JsStr :=
  ((cs.dropWhile Char.isWhitespace).reverse.dropWhile Char.isWhitespace).reverse

/-- JavaScript `s.trim().split(/\s+/)` as used on record lines: on a trimmed
string, splitting on whitespace runs equals splitting on single whitespace
characters and discarding empty chunks. -/
def splitWs (cs : JsStr) : List JsStr :=
  (splitOnPred Char.isWhitespace (jsTrim cs)).filter (fun g => g ≠ [])

/-- Longest digit prefix of a character list, as a natural number;
`none` when the list does not start with a digit. -/
def parseDigits (cs : JsStr) : Option ℕ :=
  let ds := cs.takeWhile Char.isDigit
  if ds.isEmpty then none
  else some (ds.foldl (fun n c => 10 * n + (c.toNat - 48)) 0)

/-- Model of JavaScript `parseInt(s)` (base 10): skip leading whitespace,
optional sign, then the longest digit prefix; `none` models `NaN`. -/
def jsParseIntStr (s : JsStr) : Option ℤ :=
  match s.dropWhile Char.isWhitespace with
  | '-' :: rest => (parseDigits rest).map (fun n => -(n : ℤ))
  | '+' :: rest => (parseDigits rest).map (fun n => (n : ℤ))
  | cs => (parseDigits cs).map (fun n => (n : ℤ))

/-- `parseInt` applied to a possibly-`undefined` argument
(`parseInt(undefined)` is `NaN`). -/
def jsParseInt (s : Option JsStr) : Option ℤ :=
  match s with
  | none => none
  | some s => jsParseIntStr s

/-- Digit-list value, used for both the integer and the fractional part of
a decimal literal. -/
def digitsValue (ds : JsStr) : ℕ :=
  ds.foldl (fun n c => 10 * n + (c.toNat - 48)) 0

/-- Unsigned core of JavaScript `parseFloat` on the decimal grammar
occurring in PLY records: the longest prefix of the form `digits [. digits]`
(exponent notation does not occur in the modelled inputs), returned as
(numerator scaled by `10 ^ fractionLength`, scale).  `none` models `NaN`. -/
def jsParseFloatCore (cs : JsStr) : Option (ℕ × ℕ) :=
  let intDs := cs.takeWhile Char.isDigit
  let rest := cs.drop intDs.length
  let fracDs :=
    match rest with
    | '.' :: r => r.takeWhile Char.isDigit
    | _ => []
  if intDs.isEmpty ∧ fracDs.isEmpty then none
  else some (digitsValue intDs * 10 ^ fracDs.length + digitsValue fracDs, 10 ^ fracDs.length)

/-- Model of JavaScript `parseFloat(s)`: skip leading whitespace, optional
sign, then the decimal prefix; the value `int.frac` is realised as
`mkRat (±scaledDigits) (10 ^ fracLen)`. -/
def jsParseFloatStr (s : JsStr) : JsF :=
  match s.dropWhile Char.isWhitespace with
  | '-' :: rest => (jsParseFloatCore rest).map (fun p => mkRat (-(p.1 : ℤ)) p.2)
  | '+' :: rest => (jsParseFloatCore rest).map (fun p => mkRat p.1 p.2)
  | cs => (jsParseFloatCore cs).map (fun p => mkRat p.1 p.2)

/-- `parseFloat` applied to a possibly-`undefined` argument
(`parseFloat(undefined)` is `NaN`). -/
def jsParseFloat (s : Option JsStr) : JsF :=
  match s with
  | none => none
  | some s => jsParseFloatStr s

instance {ε α : Type} [DecidableEq ε] [DecidableEq α] : DecidableEq (Except ε α) := fun
  | .error e, .error f => decidable_of_iff (e = f) (by simp)
  | .error _, .ok _ => isFalse (by simp)
  | .ok _, .error _ => isFalse (by simp)
  | .ok a, .ok b => decidable_of_iff (a = b) (by simp)

/-! ## PLY decoding (`parsePLY`) -/

/-- One decoded PLY point: positions may be `NaN` (unparsable fields
propagate), colors are already defaulted via `(parseFloat(..) || 128)/255`,
and `a` is the alpha value `1.0` the decoder writes for every point. -/
structure PlyPoint where
  x : JsF
  y : JsF
  z : JsF
  r : ℚ
  g : ℚ
  b : ℚ
  a : ℚ
deriving DecidableEq, Repr

/-- Model of the header scan of `parsePLY` (`src/main.js` lines 330–338 and
622–625, `src/unnamed/part_000` lines 84–92): walk the lines keeping
`(pointCount, headerEnd)`; a line starting with `"element vertex"` sets
`pointCount := parseInt(line.split(' ')[2])`; the line `"end_header"` sets
`headerEnd := i + 1` and breaks.  If `"end_header"` never occurs,
`headerEnd` keeps its initial value `0`. -/
def scanHeader : List JsStr → ℕ → Option ℤ → Option ℤ × ℕ
  | [], _, pc => (pc, 0)
  | l :: rest, i, pc =>
    let pc' :=
      if "element vertex".data.isPrefixOf l then
        jsParseInt (splitOnPred (fun c => c = ' ') l)[2]?
      else pc
    if l = "end_header".data then (pc', i + 1) else scanHeader rest (i + 1) pc'

/-- Number of iterations `for (let i = 0; i < pointCount; i++)` runs:
`0` when `pointCount` is `NaN` or negative. -/
def loopCount (pc : Option ℤ) : ℕ :=
  match pc with
  | none => 0
  | some z => z.toNat

/-- Model of one record-line decode (`src/main.js` lines 345–351 / 629–631,
`src/unnamed/part_000` lines 265–274): `line.trim().split(/\s+/)`, positions
via `parseFloat`, colors via `(parseFloat(p[i]) || 128) / 255`, alpha
`1.0`. -/
def parseRecord (line : JsStr) : PlyPoint :=
  let p := splitWs line
  { x := jsParseFloat p[0]?
    y := jsParseFloat p[1]?
    z := jsParseFloat p[2]?
    r := ratDivNat (jsOr (jsParseFloat p[3]?) 128) 255
    g := ratDivNat (jsOr (jsParseFloat p[4]?) 128) 255
    b := ratDivNat (jsOr (jsParseFloat p[5]?) 128) 255
    a := 1 }

/-- Model of the point-decoding part of `parsePLY` (`src/main.js`
lines 325–364 / 618–637, and `parsePLY`+`loadPLY` of
`src/unnamed/part_000`): split the text on newlines, scan the header, then
decode `pointCount` record lines starting at `headerEnd`.  Reading past the
end of the line array (`lines[headerEnd+i]` being `undefined`, whose
`.trim()` throws a `TypeError`) is modelled by `.error ()`. -/
def parsePLYPoints (text : String) : Except Unit (List PlyPoint) :=
  let lines := jsLines text
  let scan := scanHeader lines 0 (some 0)
  (List.range (loopCount scan.1)).mapM (fun i =>
    match lines[scan.2 + i]? with
    | none => .error ()
    | some l => .ok (parseRecord l))

/-- The `pointCount` value the decode reports in the status message. -/
def scannedPointCount (text : String) : Option ℤ :=
  (scanHeader (jsLines text) 0 (some 0)).1

/-- `Number`-rendering used by the status line; `NaN` renders as `"NaN"`. -/
def jsNumToString (pc : Option ℤ) : String :=
  match pc with
  | none => "NaN"
  | some z => toString z

/-- The status message the triangle-variant `parsePLY` writes after a load
(`src/main.js` line 367). -/
def loadStatus (text : String) : String :=
  jsNumToString (scannedPointCount text) ++ " points loaded"

/-! ## Vertex expansion -/

/-- The expansion loop of the PLY decode paths (`src/main.js` lines 353–363
with `k = 3`, lines 632–636 with `k = 6`): every decoded point's 7-float
record `(x,y,z,r,g,b,1.0)` is written `k` times in a row.  Since `PlyPoint`
already carries the written alpha, each output vertex is the point record
itself. -/
def expandPlyPoints (k : ℕ) (pts : List PlyPoint) : List PlyPoint :=
  pts.flatMap (List.replicate k)

/-- A procedurally generated point (`src/models.js` `addEllipsoid`,
`src/main.js` `generateScene`): real-valued position from spherical
sampling, rational color channels. -/
structure RPoint where
  x : ℝ
  y : ℝ
  z : ℝ
  r : ℚ
  g : ℚ
  b : ℚ

/-- A 7-float vertex record written by the procedural expansion loops. -/
structure RVertex where
  x : ℝ
  y : ℝ
  z : ℝ
  r : ℚ
  g : ℚ
  b : ℚ
  a : ℚ

/-- The vertex record `generateDefaultCloud` writes for a point:
`(p.x, p.y, p.z, p.r, p.g, p.b, 1.0)`. -/
def rVertexOfPoint (p : RPoint) : RVertex :=
  ⟨p.x, p.y, p.z, p.r, p.g, p.b, 1⟩

/-- The expansion loop of `generateDefaultCloud` (`src/main.js`
lines 557–564 with `k = 6`; lines 205–215 of the triangle variant with
`k = 3`): each point's vertex record is written `k` times in a row. -/
def expandScenePoints (k : ℕ) (pts : List RPoint) : List RVertex :=
  pts.flatMap (fun p => List.replicate k (rVertexOfPoint p))

/-! ## Local-offset patterns (splat corner geometry in the vertex shaders) -/

/-- Quad-variant per-vertex corner offset (`src/main.js` lines 443–453):
`quadIdx = vid % 6`, two triangles covering the unit square; the same values
are also written to `uv`. -/
def quadOffset (quadIdx : ℕ) : ℚ × ℚ :=
  if quadIdx = 0 then (-1, -1)
  else if quadIdx = 1 then (1, -1)
  else if quadIdx = 2 then (1, 1)
  else if quadIdx = 3 then (-1, -1)
  else if quadIdx = 4 then (1, 1)
  else (-1, 1)

/-- Quad-variant offset as a function of the vertex index. -/
def quadOffsetAt (vid : ℕ) : ℚ × ℚ := quadOffset (vid % 6)

/-- Triangle-variant per-vertex offset (`src/main.js` lines 79–84):
`triIdx = vid % 3`, offsets `(0, size)`, `(-size*0.866, -size*0.5)`,
`(size*0.866, -size*0.5)` where `size = pointSize * 0.008`. -/
def triOffset (size : ℚ) (triIdx : ℕ) : ℚ × ℚ :=
  if triIdx = 0 then (0, size)
  else if triIdx = 1 then (-(size * (866/1000)), -(size * (1/2)))
  else (size * (866/1000), -(size * (1/2)))

/-- Triangle-variant offset as a function of the vertex index. -/
def triOffsetAt (size : ℚ) (vid : ℕ) : ℚ × ℚ := triOffset size (vid % 3)

/-- Squared Euclidean distance between two planar points. -/
def sqDist (p q : ℚ × ℚ) : ℚ := (p.1 - q.1) ^ 2 + (p.2 - q.2) ^ 2

/-! ## Quad fragment shader -/

/-- The interpolated fragment color. -/
structure FragColor where
  r : ℝ
  g : ℝ
  b : ℝ
  a : ℝ

/-- WGSL `length` on a `vec2f`. -/
noncomputable def wgslLength (v : ℝ × ℝ) : ℝ := Real.sqrt (v.1 ^ 2 + v.2 ^ 2)

open Classical in
/-- The quad-variant fragment shader `fs` (`src/main.js` lines 460–466):
`d = length(uv)`; `discard` (modelled as `none`) when `d > 1.0`; otherwise
return the input rgb with alpha `col.a * exp(-d * d * 2.0)`. -/
noncomputable def fsQuad (uv : ℝ × ℝ) (col : FragColor) : Option FragColor :=
  let d := wgslLength uv
  if d > 1 then none
  else some ⟨col.r, col.g, col.b, col.a * Real.exp (-d * d * 2)⟩

/-! ## Camera state and input handlers -/

/-- The orbital camera state shared by all variants: `z` is the orbit
distance, `rotX` the pitch, `rotY` the yaw. -/
structure Camera where
  z : ℚ
  rotX : ℚ
  rotY : ℚ
deriving DecidableEq, Repr

/-- `Math.max(lo, Math.min(hi, v))`. -/
def jsClamp (lo hi v : ℚ) : ℚ := max lo (min hi v)

/-- Initial camera of the triangle variant (`src/main.js` line 9). -/
def camA0 : Camera := ⟨3, 3/10, 1/2⟩

/-- Initial camera of the quad variant (`src/main.js` line 391). -/
def camB0 : Camera := ⟨5, 1/2, 0⟩

/-- Initial camera of the point-list variant (`src/unnamed/part_000`
line 9). -/
def camP0 : Camera := ⟨5, 0, 0⟩

/-- Wheel handler of both `src/main.js` variants (lines 309–312 / 608):
`camera.z += e.deltaY * 0.005` then clamp to `[1, 10]`. -/
def wheelMain (c : Camera) (dy : ℚ) : Camera :=
  { c with z := jsClamp 1 10 (c.z + dy * (5/1000)) }

/-- Wheel handler of `src/unnamed/part_000` (lines 241–244):
`camera.z += e.deltaY * 0.01` then clamp to `[1, 50]`. -/
def wheelPoint (c : Camera) (dy : ℚ) : Camera :=
  { c with z := jsClamp 1 50 (c.z + dy * (1/100)) }

/-- Drag (mousemove) handler of both `src/main.js` variants
(lines 298–304 / 599–605): `rotY += dx * 0.01`; `rotX += dy * 0.01` then
clamp to `[-1.5, 1.5]`. -/
def dragMain (c : Camera) (d : ℚ × ℚ) : Camera :=
  { c with
    rotY := c.rotY + d.1 * (1/100)
    rotX := jsClamp (-(3/2)) (3/2) (c.rotX + d.2 * (1/100)) }

/-- Drag (mousemove) handler of `src/unnamed/part_000` (lines 231–236):
`rotY += dx * 0.01`; `rotX += dy * 0.01`; no clamping of either angle. -/
def dragPoint (c : Camera) (d : ℚ × ℚ) : Camera :=
  { c with
    rotY := c.rotY + d.1 * (1/100)
    rotX := c.rotX + d.2 * (1/100) }

/-! ## 4×4 matrices (`mulMat4`) -/

/-- A 4×4 matrix; the `Float32Array(16)` entry `o[i*4+j]` is the value at
row `i`, column `j`. -/
def Mat4 := Fin 4 → Fin 4 → ℚ

/-- `mulMat4` (`src/main.js` lines 163–171 / 508–513, `src/unnamed/part_000`
lines 166–174): `o[i*4+j] = a[i*4]*b[j] + a[i*4+1]*b[4+j] + a[i*4+2]*b[8+j]
+ a[i*4+3]*b[12+j]`. -/
def mulMat4 (a b : Mat4) : Mat4 := fun i j =>
  a i 0 * b 0 j + a i 1 * b 1 j + a i 2 * b 2 j + a i 3 * b 3 j

/-- The 4×4 identity matrix. -/
def idMat4 : Mat4 := fun i j => if i = j then 1 else 0

/-- A pure rotation about the X axis with cosine `c` and sine `s`, laid out
in the row convention of `lookAt` (`src/main.js` lines 152–161): rows
`[1,0,0,0]`, `[0,c,s,0]`, `[0,-s,c,0]`, `[0,0,0,1]`. -/
def rotXMat4 (c s : ℚ) : Mat4 := fun i j =>
  if i = 0 then (if j = 0 then 1 else 0)
  else if i = 1 then (if j = 1 then c else if j = 2 then s else 0)
  else if i = 2 then (if j = 1 then -s else if j = 2 then c else 0)
  else (if j = 3 then 1 else 0)

/-! ## Procedural generators -/

/-- One point generated by `addEllipsoid` (`src/models.js` lines 36–55) from
the random draws `u, v, w ∈ [0,1)` of its loop body: spherical sampling
`theta = 2πu`, `phi = acos(2v-1)` scaled by per-axis radii, and color
`baseColor * (0.95 + w * 0.1)` — with no upper clamp. -/
noncomputable def addEllipsoidPoint (cx cy cz rx ry rz : ℚ) (color : ℚ × ℚ × ℚ)
    (u v w : ℚ) : RPoint :=
  let theta : ℝ := 2 * Real.pi * (u : ℝ)
  let phi : ℝ := Real.arccos (2 * (v : ℝ) - 1)
  let variation : ℚ := 95/100 + w * (1/10)
  { x := (cx : ℝ) + (rx : ℝ) * Real.sin phi * Real.cos theta
    y := (cy : ℝ) + (ry : ℝ) * Real.cos phi
    z := (cz : ℝ) + (rz : ℝ) * Real.sin phi * Real.sin theta
    r := color.1 * variation
    g := color.2.1 * variation
    b := color.2.2 * variation }

/-- One point generated by the `add` closure of `generateScene`
(`src/main.js` lines 518–532) from the random draws `u, v, w ∈ [0,1)`:
same spherical sampling, and color `min(1, baseColor * (0.9 + w * 0.2))`
per channel. -/
noncomputable def scenePoint (cx cy cz rx ry rz : ℚ) (col : ℚ × ℚ × ℚ)
    (u v w : ℚ) : RPoint :=
  let theta : ℝ := 2 * Real.pi * (u : ℝ)
  let phi : ℝ := Real.arccos (2 * (v : ℝ) - 1)
  let vary : ℚ := 9/10 + w * (2/10)
  { x := (cx : ℝ) + (rx : ℝ) * Real.sin phi * Real.cos theta
    y := (cy : ℝ) + (ry : ℝ) * Real.cos phi
    z := (cz : ℝ) + (rz : ℝ) * Real.sin phi * Real.sin theta
    r := min 1 (col.1 * vary)
    g := min 1 (col.2.1 * vary)
    b := min 1 (col.2.2 * vary) }

/-! ## Startup (`initWebGPU` + `init`) -/

/-- The host capabilities `initWebGPU` probes: whether `navigator.gpu`
exists, and whether adapter/device acquisition succeeds. -/
structure GpuEnv where
  gpuAvailable : Bool
  adapterAvailable : Bool

/-- Outcome of startup: rendering with a loaded vertex buffer, halted with a
status message, or crashed (an exception escaped `init`). -/
inductive InitOutcome
  | rendering (vertexCount : ℕ)
  | halted (statusMsg : String)
  | crashed
deriving DecidableEq

/-- Model of `initWebGPU` + `init` of the quad variant (`src/main.js`
lines 407–420 and 643–651; the triangle variant lines 28–44 / 373–382 is
identical in structure): if `navigator.gpu` is missing, set the status to
`"WebGPU not supported"` and stop (render never starts); otherwise, if
adapter/device acquisition fails, `adapter.requestDevice()` throws out of
`init`; otherwise build the pipeline, expand the default cloud and start
rendering it.  There is no second (fallback) renderer anywhere in the
source: the only branch on failure is halt or crash. -/
def initViewer (env : GpuEnv) (scene : List RPoint) : InitOutcome :=
  if env.gpuAvailable = false then .halted "WebGPU not supported"
  else if env.adapterAvailable = false then .crashed
  else .rendering (expandScenePoints 6 scene).length

/-- A one-point scene used to instantiate startup and expansion facts. -/
noncomputable def demoScene : List RPoint := [⟨0, 0, 0, 1, 1, 1⟩]

/-! ## General lemmas -/

theorem ratDivNat_eq (q : ℚ) (n : ℕ) : ratDivNat q n = q / n := by
  rw [ratDivNat, Rat.mkRat_eq_div, Nat.cast_mul, div_mul_eq_div_div, Rat.num_div_den]

theorem flatMap_replicate_length {α β : Type} (k : ℕ) (f : α → β) :
    ∀ l : List α, (l.flatMap (fun a => List.replicate k (f a))).length = l.length * k
  | [] => by simp
  | a :: l => by
    have ih := flatMap_replicate_length k f l
    simp only [List.flatMap_cons, List.length_append, List.length_replicate, ih,
      List.length_cons]
    ring

theorem flatMap_replicate_group {α β : Type} (k : ℕ) (f : α → β) :
    ∀ (l : List α) (i : ℕ) (a : α), l[i]? = some a →
      ((l.flatMap (fun a => List.replicate k (f a))).drop (i * k)).take k =
        List.replicate k (f a)
  | [], i, a, h => by simp at h
  | b :: l, 0, a, h => by
    simp only [List.getElem?_cons_zero, Option.some.injEq] at h
    subst h
    simp only [List.flatMap_cons, Nat.zero_mul, List.drop_zero]
    exact List.take_left' (List.length_replicate k _)
  | b :: l, i + 1, a, h => by
    simp only [List.getElem?_cons_succ] at h
    have ih := flatMap_replicate_group k f l i a h
    simp only [List.flatMap_cons]
    rw [show (i + 1) * k = k + i * k by ring, ← List.drop_drop,
      List.drop_left' (List.length_replicate k _)]
    exact ih

theorem jsClamp_mem (lo hi v : ℚ) (h : lo ≤ hi) :
    lo ≤ jsClamp lo hi v ∧ jsClamp lo hi v ≤ hi :=
  ⟨le_max_left _ _, max_le h (min_le_left _ _)⟩

theorem scanHeader_fst_of_no_decl :
    ∀ (lines : List JsStr) (i : ℕ) (pc : Option ℤ),
      (∀ l ∈ lines, "element vertex".data.isPrefixOf l = false) →
      (scanHeader lines i pc).1 = pc
  | [], _, _, _ => rfl
  | l :: rest, i, pc, h => by
    have hl := h l (List.mem_cons_self l rest)
    have ht := fun x hx => h x (List.mem_cons_of_mem l hx)
    simp only [scanHeader, hl, Bool.false_eq_true, if_false]
    split
    · rfl
    · exact scanHeader_fst_of_no_decl rest (i + 1) pc ht

/-! ## Claim theorems -/

/-- C1: for every point count N and splat topology k (in particular the two
used topologies k = 3 and k = 6), the vertex expansion — of the PLY decode
paths and of the procedural `generateDefaultCloud` paths alike — produces
exactly N·k output vertices, and for every point index i the k consecutive
vertices of group i are all equal to the point's vertex record, hence carry
identical position (x,y,z) and identical color (r,g,b,a). -/
theorem expansion_invariant (k : ℕ) (plyPts : List PlyPoint) (scenePts : List RPoint) :
    (expandPlyPoints k plyPts).length = plyPts.length * k ∧
    (∀ (i : ℕ) (p : PlyPoint), plyPts[i]? = some p →
      ((expandPlyPoints k plyPts).drop (i * k)).take k = List.replicate k p) ∧
    (expandScenePoints k scenePts).length = scenePts.length * k ∧
    (∀ (i : ℕ) (p : RPoint), scenePts[i]? = some p →
      ((expandScenePoints k scenePts).drop (i * k)).take k =
        List.replicate k (rVertexOfPoint p)) := by
  refine ⟨?_, ?_, ?_, ?_⟩
  · exact flatMap_replicate_length k (fun p => p) plyPts
  · exact fun i p h => flatMap_replicate_group k (fun p => p) plyPts i p h
  · exact flatMap_replicate_length k rVertexOfPoint scenePts
  · exact fun i p h => flatMap_replicate_group k rVertexOfPoint scenePts i p h

/-- C2 counterexample: the triangle-topology offsets (at `size = 1`:
`(0,1)`, `(-0.866,-0.5)`, `(0.866,-0.5)`) are not a regular triangle — the
squared side length from vertex 0 to vertex 1 differs from the one from
vertex 1 to vertex 2 (`0.866` is only an approximation of `√3/2`) — and
vertex 1 does not lie at 150° from vertical: a vector at that angle with
the pattern's scale would have first component `-1/2`, but the code's has
`-0.866`. -/
theorem tri_offsets_not_regular_cex :
    sqDist (triOffset 1 0) (triOffset 1 1) ≠ sqDist (triOffset 1 1) (triOffset 1 2) ∧
    (triOffset 1 1).1 ≠ -(1/2) := by
  constructor <;> norm_num [triOffset, sqDist]

/-- C2 (amended): for the quad topology, the 6 local offsets of every vertex
group are exactly `(-1,-1),(1,-1),(1,1),(-1,-1),(1,1),(-1,1)` in that
order; for the triangle topology the 3 offsets are exactly `(0, size)`,
`(-size·0.866, -size·0.5)`, `(size·0.866, -size·0.5)` — an approximately
regular triangle with one vertex straight up and the other two
approximately ±120° from vertical (0.866 ≈ √3/2), all scaled by the same
constant. -/
theorem splat_offset_patterns (i : ℕ) (s : ℚ) :
    [quadOffsetAt (6*i), quadOffsetAt (6*i+1), quadOffsetAt (6*i+2),
     quadOffsetAt (6*i+3), quadOffsetAt (6*i+4), quadOffsetAt (6*i+5)] =
      [(-1,-1), (1,-1), (1,1), (-1,-1), (1,1), (-1,1)] ∧
    [triOffsetAt s (3*i), triOffsetAt s (3*i+1), triOffsetAt s (3*i+2)] =
      [(0, s), (-(s * (866/1000)), -(s * (1/2))), (s * (866/1000), -(s * (1/2)))] := by
  have q0 : (6*i) % 6 = 0 := by omega
  have q1 : (6*i+1) % 6 = 1 := by omega
  have q2 : (6*i+2) % 6 = 2 := by omega
  have q3 : (6*i+3) % 6 = 3 := by omega
  have q4 : (6*i+4) % 6 = 4 := by omega
  have q5 : (6*i+5) % 6 = 5 := by omega
  have t0 : (3*i) % 3 = 0 := by omega
  have t1 : (3*i+1) % 3 = 1 := by omega
  have t2 : (3*i+2) % 3 = 2 := by omega
  constructor
  · simp [quadOffsetAt, quadOffset, q0, q1, q2, q3, q4, q5]
  · simp [triOffsetAt, triOffset, t0, t1, t2]

/-- C4: decoding the PLY text with header `element vertex 2`, terminator
`end_header`, and records `1 2 3 10 20 30` and `4 5 6` yields exactly two
points: point 0 with position (1,2,3) and color (10/255, 20/255, 30/255),
point 1 with position (4,5,6) and the missing-channel default color
(128/255, 128/255, 128/255); alpha is 1.0 for both. -/
theorem ply_roundtrip_two_points :
    parsePLYPoints "ply\nelement vertex 2\nend_header\n1 2 3 10 20 30\n4 5 6\n" =
      .ok [⟨some 1, some 2, some 3, 10/255, 20/255, 30/255, 1⟩,
           ⟨some 4, some 5, some 6, 128/255, 128/255, 128/255, 1⟩] := by
  have h : parsePLYPoints "ply\nelement vertex 2\nend_header\n1 2 3 10 20 30\n4 5 6\n" =
      .ok [⟨some 1, some 2, some 3, ratDivNat 10 255, ratDivNat 20 255, ratDivNat 30 255, 1⟩,
           ⟨some 4, some 5, some 6, ratDivNat 128 255, ratDivNat 128 255, ratDivNat 128 255, 1⟩] := by
    decide
  rw [h]
  norm_num [ratDivNat_eq]

/-- C6: `mulMat4` implements standard 4×4 matrix multiplication
(`(AB)_{ij} = Σ_t A_{it}·B_{tj}`), the identity matrix is a two-sided unit
for it, and composing the 90° X-rotation with itself yields the 180°
X-rotation. -/
theorem mulMat4_matrix_mul :
    (∀ (a b : Mat4) (i j : Fin 4), mulMat4 a b i j = ∑ t : Fin 4, a i t * b t j) ∧
    (∀ m : Mat4, mulMat4 idMat4 m = m ∧ mulMat4 m idMat4 = m) ∧
    mulMat4 (rotXMat4 0 1) (rotXMat4 0 1) = rotXMat4 (-1) 0 := by
  refine ⟨fun a b i j => by rw [Fin.sum_univ_four]; rfl, fun m => ⟨?_, ?_⟩, ?_⟩
  · funext i j
    fin_cases i <;> simp [mulMat4, idMat4]
  · funext i j
    fin_cases j <;> simp [mulMat4, idMat4]
  · funext i j
    fin_cases i <;> fin_cases j <;>
      norm_num [mulMat4, rotXMat4, Fin.ext_iff,
        show ((0 : Fin 4) : ℕ) = 0 from rfl, show ((1 : Fin 4) : ℕ) = 1 from rfl,
        show ((2 : Fin 4) : ℕ) = 2 from rfl, show ((3 : Fin 4) : ℕ) = 3 from rfl]

/-- C10: in the PLY decode, a color field that parses to the number 0 is
falsy for `||`, so it is replaced by the default 128 exactly as if the field
were absent: the record `1 2 3 0 0 0` decodes to the same mid-gray color
(128/255, 128/255, 128/255) as the color-less record `1 2 3`. -/
theorem ply_zero_color_defaults_gray :
    (∀ d : ℚ, jsOr (some 0) d = d ∧ jsOr none d = d) ∧
    parseRecord "1 2 3 0 0 0".data =
      ⟨some 1, some 2, some 3, 128/255, 128/255, 128/255, 1⟩ ∧
    parseRecord "1 2 3 0 0 0".data = parseRecord "1 2 3".data := by
  refine ⟨fun d => ⟨by simp [jsOr], rfl⟩, ?_, by decide⟩
  have h : parseRecord "1 2 3 0 0 0".data =
      ⟨some 1, some 2, some 3, ratDivNat 128 255, ratDivNat 128 255, ratDivNat 128 255, 1⟩ := by
    decide
  rw [h]
  norm_num [ratDivNat_eq]

open Classical in
/-- C3: in the quad-variant fragment shader, with `d = |uv|` the Euclidean
length of the interpolated local offset, the fragment is discarded exactly
when `d > 1`, and otherwise the output is the input rgb with alpha
`inputAlpha · exp(-2·d²)`. -/
theorem quad_fragment_falloff (uv : ℝ × ℝ) (col : FragColor) :
    (fsQuad uv col = none ↔ 1 < wgslLength uv) ∧
    fsQuad uv col =
      (if 1 < wgslLength uv then none
       else some ⟨col.r, col.g, col.b, col.a * Real.exp (-(2 * wgslLength uv ^ 2))⟩) := by
  have harg : -wgslLength uv * wgslLength uv * 2 = -(2 * wgslLength uv ^ 2) := by ring
  by_cases h : 1 < wgslLength uv
  · constructor
    · simp [fsQuad, h]
    · simp [fsQuad, h]
  · constructor
    · simp [fsQuad, h]
    · simp only [fsQuad, if_neg h]
      rw [harg]

/-- C5 counterexample: in the point-list variant (`src/unnamed/part_000`),
the drag handler never clamps the pitch: a single drag delta of
`(dx, dy) = (0, 200)` from the initial camera produces pitch `2`, outside
`[-1.5, 1.5]`. -/
theorem point_variant_pitch_unclamped_cex :
    (dragPoint camP0 (0, 200)).rotX = 2 ∧ ¬((2 : ℚ) ≤ 3/2) := by
  constructor
  · norm_num [dragPoint, camP0]
  · norm_num

/-- C5 (amended): after any sequence of zoom deltas, the distance stays in
the variant's configured clamp range (`[1,10]` for both `src/main.js`
variants — hence inside the claimed `[1,50]` — and `[1,50]` for the
point-list variant); after any sequence of drag deltas, the pitch stays in
`[-1.5, 1.5]` in the two `src/main.js` variants, while the point-list
variant never clamps pitch (it is the exact running sum of deltas, see the
counterexample); yaw is never clamped in any variant (it is the exact
running sum of its deltas). -/
theorem camera_clamp_behaviour :
    (∀ ds : List ℚ, 1 ≤ (ds.foldl wheelMain camA0).z ∧ (ds.foldl wheelMain camA0).z ≤ 10) ∧
    (∀ ds : List ℚ, 1 ≤ (ds.foldl wheelMain camB0).z ∧ (ds.foldl wheelMain camB0).z ≤ 10) ∧
    (∀ ds : List ℚ, 1 ≤ (ds.foldl wheelPoint camP0).z ∧ (ds.foldl wheelPoint camP0).z ≤ 50) ∧
    (∀ ds : List (ℚ × ℚ),
      -(3/2) ≤ (ds.foldl dragMain camA0).rotX ∧ (ds.foldl dragMain camA0).rotX ≤ 3/2) ∧
    (∀ ds : List (ℚ × ℚ),
      -(3/2) ≤ (ds.foldl dragMain camB0).rotX ∧ (ds.foldl dragMain camB0).rotX ≤ 3/2) ∧
    (∀ (c : Camera) (ds : List (ℚ × ℚ)),
      (ds.foldl dragMain c).rotY = c.rotY + (ds.map (fun d => d.1 * (1/100))).sum) ∧
    (∀ (c : Camera) (ds : List (ℚ × ℚ)),
      (ds.foldl dragPoint c).rotY = c.rotY + (ds.map (fun d => d.1 * (1/100))).sum) ∧
    (∀ (c : Camera) (ds : List (ℚ × ℚ)),
      (ds.foldl dragPoint c).rotX = c.rotX + (ds.map (fun d => d.2 * (1/100))).sum) := by
  have hwMain : ∀ (c : Camera), 1 ≤ c.z → c.z ≤ 10 → ∀ ds : List ℚ,
      1 ≤ (ds.foldl wheelMain c).z ∧ (ds.foldl wheelMain c).z ≤ 10 := by
    intro c h1 h2 ds
    induction ds generalizing c with
    | nil => exact ⟨h1, h2⟩
    | cons d ds ih =>
      have h := jsClamp_mem 1 10 (c.z + d * (5/1000)) (by norm_num)
      exact ih (wheelMain c d) h.1 h.2
  have hwPoint : ∀ (c : Camera), 1 ≤ c.z → c.z ≤ 50 → ∀ ds : List ℚ,
      1 ≤ (ds.foldl wheelPoint c).z ∧ (ds.foldl wheelPoint c).z ≤ 50 := by
    intro c h1 h2 ds
    induction ds generalizing c with
    | nil => exact ⟨h1, h2⟩
    | cons d ds ih =>
      have h := jsClamp_mem 1 50 (c.z + d * (1/100)) (by norm_num)
      exact ih (wheelPoint c d) h.1 h.2
  have hdMain : ∀ (c : Camera), -(3/2) ≤ c.rotX → c.rotX ≤ 3/2 → ∀ ds : List (ℚ × ℚ),
      -(3/2) ≤ (ds.foldl dragMain c).rotX ∧ (ds.foldl dragMain c).rotX ≤ 3/2 := by
    intro c h1 h2 ds
    induction ds generalizing c with
    | nil => exact ⟨h1, h2⟩
    | cons d ds ih =>
      have h := jsClamp_mem (-(3/2)) (3/2) (c.rotX + d.2 * (1/100)) (by norm_num)
      exact ih (dragMain c d) h.1 h.2
  have hyMain : ∀ (c : Camera) (ds : List (ℚ × ℚ)),
      (ds.foldl dragMain c).rotY = c.rotY + (ds.map (fun d => d.1 * (1/100))).sum := by
    intro c ds
    induction ds generalizing c with
    | nil => simp
    | cons d ds ih =>
      rw [List.foldl_cons, ih (dragMain c d)]
      simp only [dragMain, List.map_cons, List.sum_cons]
      ring
  have hyPoint : ∀ (c : Camera) (ds : List (ℚ × ℚ)),
      (ds.foldl dragPoint c).rotY = c.rotY + (ds.map (fun d => d.1 * (1/100))).sum := by
    intro c ds
    induction ds generalizing c with
    | nil => simp
    | cons d ds ih =>
      rw [List.foldl_cons, ih (dragPoint c d)]
      simp only [dragPoint, List.map_cons, List.sum_cons]
      ring
  have hxPoint : ∀ (c : Camera) (ds : List (ℚ × ℚ)),
      (ds.foldl dragPoint c).rotX = c.rotX + (ds.map (fun d => d.2 * (1/100))).sum := by
    intro c ds
    induction ds generalizing c with
    | nil => simp
    | cons d ds ih =>
      rw [List.foldl_cons, ih (dragPoint c d)]
      simp only [dragPoint, List.map_cons, List.sum_cons]
      ring
  exact ⟨hwMain camA0 (by norm_num [camA0]) (by norm_num [camA0]),
    hwMain camB0 (by norm_num [camB0]) (by norm_num [camB0]),
    hwPoint camP0 (by norm_num [camP0]) (by norm_num [camP0]),
    hdMain camA0 (by norm_num [camA0]) (by norm_num [camA0]),
    hdMain camB0 (by norm_num [camB0]) (by norm_num [camB0]),
    hyMain, hyPoint, hxPoint⟩

/-- C7 counterexample: when acquisition of the rendering capability fails
(`navigator.gpu` absent), the system does not select any fallback variant
and produces no renderable buffer — startup halts with the status
`"WebGPU not supported"` instead of rendering the expanded geometry. -/
theorem startup_gpu_failure_halts_cex :
    initViewer ⟨false, true⟩ demoScene = .halted "WebGPU not supported" ∧
    initViewer ⟨false, true⟩ demoScene ≠
      .rendering (expandScenePoints 6 demoScene).length := by
  constructor
  · rfl
  · simp [initViewer]

/-- C7 (amended): there is no fallback renderer in the source.  When
`navigator.gpu` is missing, startup reports "WebGPU not supported" and
halts rendering (regardless of any further capability); when adapter/device
acquisition fails afterwards, the startup code throws; only when the single
WebGPU backend is fully available does the system render, with the full
6·N-vertex buffer for an N-point scene. -/
theorem startup_no_fallback (scene : List RPoint) (b : Bool) :
    initViewer ⟨false, b⟩ scene = .halted "WebGPU not supported" ∧
    initViewer ⟨true, false⟩ scene = .crashed ∧
    initViewer ⟨true, true⟩ scene = .rendering (scene.length * 6) := by
  refine ⟨rfl, rfl, ?_⟩
  show InitOutcome.rendering (scene.flatMap fun p => List.replicate 6 (rVertexOfPoint p)).length =
    InitOutcome.rendering (scene.length * 6)
  rw [flatMap_replicate_length 6 rVertexOfPoint scene]

/-- C8 counterexample: a buffer whose header declares `element vertex 1`
but lacks the `end_header` terminator does not load zero points: the
declared count is honoured with `headerEnd` left at `0`, so the decode
loads one point (parsed from the header line itself). -/
theorem ply_missing_end_header_cex :
    parsePLYPoints "element vertex 1\n4 5 6" ≠ .ok [] ∧
    (parsePLYPoints "element vertex 1\n4 5 6").toOption.map List.length = some 1 := by
  decide

/-- C8 (amended): if the vertex-count declaration (`element vertex N`) is
missing, the decode loads exactly zero points, throws nothing, and the
reported status reflects zero points ("0 points loaded").  (If instead only
the `end_header` terminator is missing, the declared count is still
honoured with record parsing starting at line 0, so nonzero points — or an
out-of-range read — can result; see the counterexample.) -/
theorem ply_missing_decl_zero_points (text : String)
    (h : ∀ l ∈ jsLines text, "element vertex".data.isPrefixOf l = false) :
    parsePLYPoints text = .ok [] ∧ loadStatus text = "0 points loaded" := by
  have hscan : (scanHeader (jsLines text) 0 (some 0)).1 = some 0 :=
    scanHeader_fst_of_no_decl (jsLines text) 0 (some 0) h
  constructor
  · unfold parsePLYPoints
    simp only [hscan]
    rfl
  · unfold loadStatus scannedPointCount
    rw [hscan]
    rfl

/-- C8 witness: a concrete headerless buffer with no `element vertex` line
decodes to zero points with a "0 points loaded" status. -/
theorem ply_missing_decl_zero_points_witness :
    (∀ l ∈ jsLines "ply\nformat ascii 1.0\nend_header\n1 2 3",
      "element vertex".data.isPrefixOf l = false) ∧
    (parsePLYPoints "ply\nformat ascii 1.0\nend_header\n1 2 3" = .ok [] ∧
      loadStatus "ply\nformat ascii 1.0\nend_header\n1 2 3" = "0 points loaded") :=
  ⟨by decide, ply_missing_decl_zero_points "ply\nformat ascii 1.0\nend_header\n1 2 3" (by decide)⟩

/-- C9 counterexample: `addEllipsoid` (`src/models.js`) does not clamp its
color jitter.  For the tail lobe call `addEllipsoid(pts, 0, 0.1, -0.5,
0.12, 0.12, 0.1, 1500, [1, 0.95, 0.9])`, the valid random draw `w = 0.9`
(`Math.random() ∈ [0,1)`) gives the red channel `1 · (0.95 + 0.9·0.1) =
1.04 > 1`. -/
theorem ellipsoid_color_exceeds_one_cex :
    1 < (addEllipsoidPoint 0 (1/10) (-(1/2)) (12/100) (12/100) (1/10)
          (1, 95/100, 9/10) 0 0 (9/10)).r ∧
    (0 : ℚ) ≤ 9/10 ∧ (9/10 : ℚ) < 1 := by
  refine ⟨?_, by norm_num, by norm_num⟩
  show (1 : ℚ) < 1 * (95/100 + 9/10 * (1/10))
  norm_num

/-- C9 (amended): every point produced by `generateScene` (`src/main.js`)
has color channels in `[0,1]`: the per-channel `Math.min(1, ·)` caps them
at 1, and they are nonnegative whenever the base color is nonnegative (as
in every call site) and the random draw is nonnegative (as `Math.random()`
guarantees).  `addEllipsoid` of `src/models.js` lacks the cap and its
jitter can push a channel above 1 (see the counterexample). -/
theorem scene_colors_in_unit_interval (cx cy cz rx ry rz : ℚ) (col : ℚ × ℚ × ℚ)
    (u v w : ℚ) (h1 : 0 ≤ col.1) (h2 : 0 ≤ col.2.1) (h3 : 0 ≤ col.2.2) (hw : 0 ≤ w) :
    (0 ≤ (scenePoint cx cy cz rx ry rz col u v w).r ∧
      (scenePoint cx cy cz rx ry rz col u v w).r ≤ 1) ∧
    (0 ≤ (scenePoint cx cy cz rx ry rz col u v w).g ∧
      (scenePoint cx cy cz rx ry rz col u v w).g ≤ 1) ∧
    (0 ≤ (scenePoint cx cy cz rx ry rz col u v w).b ∧
      (scenePoint cx cy cz rx ry rz col u v w).b ≤ 1) := by
  have hvary : (0 : ℚ) ≤ 9/10 + w * (2/10) := by
    have : (0 : ℚ) ≤ w * (2/10) := mul_nonneg hw (by norm_num)
    linarith
  refine ⟨⟨?_, ?_⟩, ⟨?_, ?_⟩, ⟨?_, ?_⟩⟩
  · exact le_min zero_le_one (mul_nonneg h1 hvary)
  · exact min_le_left _ _
  · exact le_min zero_le_one (mul_nonneg h2 hvary)
  · exact min_le_left _ _
  · exact le_min zero_le_one (mul_nonneg h3 hvary)
  · exact min_le_left _ _

/-- C9 witness: the bound instantiated at the eye-lobe base color
`[0.1, 0.1, 0.1]` of `generateScene` and the random draw `w = 1/2`. -/
theorem scene_colors_in_unit_interval_witness :
    ((0 : ℚ) ≤ 1/10 ∧ (0 : ℚ) ≤ 1/2) ∧
    ((0 ≤ (scenePoint 0 (1/2) (13/20) (1/25) (1/25) (1/50) (1/10, 1/10, 1/10) 0 0 (1/2)).r ∧
      (scenePoint 0 (1/2) (13/20) (1/25) (1/25) (1/50) (1/10, 1/10, 1/10) 0 0 (1/2)).r ≤ 1) ∧
    (0 ≤ (scenePoint 0 (1/2) (13/20) (1/25) (1/25) (1/50) (1/10, 1/10, 1/10) 0 0 (1/2)).g ∧
      (scenePoint 0 (1/2) (13/20) (1/25) (1/25) (1/50) (1/10, 1/10, 1/10) 0 0 (1/2)).g ≤ 1) ∧
    (0 ≤ (scenePoint 0 (1/2) (13/20) (1/25) (1/25) (1/50) (1/10, 1/10, 1/10) 0 0 (1/2)).b ∧
      (scenePoint 0 (1/2) (13/20) (1/25) (1/25) (1/50) (1/10, 1/10, 1/10) 0 0 (1/2)).b ≤ 1)) :=
  ⟨⟨by norm_num, by norm_num⟩,
    scene_colors_in_unit_interval 0 (1/2) (13/20) (1/25) (1/25) (1/50) (1/10, 1/10, 1/10)
      0 0 (1/2) (by norm_num) (by norm_num) (by norm_num) (by norm_num)⟩
